import Mathlib

/-!
# Verification of the record-indexing and matching core of `app.py`

Shallow embedding of the data-handling core of the AI Model Battle Arena
application (`src/app.py`): index building (`get_model_names`,
`get_datasets`, `get_problem_ids`), record matching (`filter_records`),
the correctness fallback (`calculate_is_correct`), the verdict displayed
by `render_normal_view`, and the post-selection control flow of `main`.

Conventions of the embedding:
* Python strings are modelled as `Str := List Char` so that every string
  operation is structurally recursive and evaluates inside the kernel;
  the Python primitives used by the core (`str.split`, `str.strip`,
  `str.startswith`, lexicographic comparison by code point) are embedded
  as `pySplit`, `pyStrip`, `strStartsWith` and Mathlib's lexicographic
  order on `List Char`, whose `Char` order is by code point exactly as
  Python compares strings.  `pyStrip` strips the ASCII whitespace
  characters (the answers compared here contain no exotic Unicode
  whitespace).
* A JSON record is the structure `EvaluationRecord`; the fields the core
  reads are carried explicitly, `is_correct` as an `Option Bool`
  (absent / stored boolean).
* The top-level document is `AppData`; `data.get('detailed_results', [])`
  becomes `AppData.detailedResults` with an `Option (List …)` field.
* Python `set(...)` followed by `sorted(...)` is modelled as `List.dedup`
  followed by `List.insertionSort` — both Python's Timsort and insertion
  sort are stable, and every property proved here (sortedness w.r.t. the
  key and being a permutation of the distinct values) is independent of
  the hash-dependent set-iteration order.
* Python's `int(...)` on a string is modelled by `pyInt` (whitespace
  stripping, optional sign, decimal digits with single underscores
  allowed between digits); Python's `float(...)` is modelled by
  `pyFloat`: the same grammar plus the `inf`/`infinity`/`nan` spellings,
  followed by correct rounding of the exact decimal value to IEEE-754
  binary64 (round to nearest, ties to even, subnormals, underflow to
  zero, overflow to infinity), so that `==` on the parses — NaN unequal
  to itself, infinities equal by sign, finite values equal by rounded
  value — is the comparison the program performs.
-/

set_option maxRecDepth 40000

namespace BattleArena

/-- A Python string: a list of characters. -/
abbrev Str : Type := List Char

/-! ## Python string primitives -/

/-- Python `s.split(sep)` for a one-character separator: splits at every
occurrence, keeping empty pieces (`"a__b" → ["a", "", "b"]`, `"" → [""]`).
The result is always nonempty. -/
def pySplit (sep : Char) : Str → List Str
  | [] => [[]]
  | c :: rest =>
    match pySplit sep rest with
    | [] => [[]]
    | piece :: pieces =>
      if c = sep then [] :: piece :: pieces else (c :: piece) :: pieces

/-- Python `s.strip()`: remove leading and trailing whitespace. -/
def pyStrip (s : Str) : Str :=
  ((s.dropWhile Char.isWhitespace).reverse.dropWhile Char.isWhitespace).reverse

/-- Python `s.startswith(p)`. -/
def strStartsWith : Str → Str → Bool
  | _, [] => true
  | [], _ :: _ => false
  | c :: cs, d :: ds => c = d && strStartsWith cs ds

/-! ## Python numeric-string parsing -/

/-- Value of a list of decimal digit characters, most significant first. -/
def digitsVal (cs : List Char) : Nat :=
  cs.foldl (fun a c => a * 10 + (c.toNat - 48)) 0

/-- A run of decimal digits as Python numeric literals allow them:
nonempty, with single underscores permitted between digits (`"1_000"`),
never leading, trailing or doubled.  Returns the numeric value together
with the number of actual digit characters (needed to scale fractional
parts). -/
def pyDigits (s : Str) : Option (Nat × Nat) :=
  let parts := pySplit '_' s
  if parts.all (fun p => 0 < p.length && p.all Char.isDigit) then
    let ds := parts.flatten
    some (digitsVal ds, ds.length)
  else
    none

/-- Strip one optional leading sign and delegate; a leading `-` negates
the result. -/
def pySigned {α : Type} [Neg α] (f : Str → Option α) (s : Str) : Option α :=
  match s with
  | '+' :: rest => f rest
  | '-' :: rest => (f rest).map Neg.neg
  | _ => f s

/-- Python `int(s)` on a string: strip surrounding whitespace, optional
sign, then a digit run. `none` models the `ValueError`. -/
def pyInt (s : Str) : Option Int :=
  pySigned (fun body => (pyDigits body).map (fun v => (v.1 : Int))) (pyStrip s)

/-- An exact scaled decimal: the pair `⟨m, e⟩` denotes the rational
`m * 10 ^ e`.  This is the intermediate result of parsing a float
literal's digits, before the rounding step `pyRound` turns it into the
binary64 value `float()` actually produces. -/
structure PyNum where
  mant : Int
  exp10 : Int
deriving DecidableEq, Repr

/-- Negation of a scaled decimal (used for a leading `-` sign). -/
instance : Neg PyNum := ⟨fun v => ⟨-v.mant, v.exp10⟩⟩

/-- A Python float value as `float()` produces it: NaN, a signed
infinity, or a finite IEEE-754 binary64 value represented canonically by
its integer number of units of `2 ^ (-1074)` (the smallest positive
subnormal).  Negative zero is collapsed to `finite 0`: `==` cannot
distinguish `-0.0` from `0.0`, and nothing else in the program observes
the sign of zero. -/
inductive PyFloat where
  | nan : PyFloat
  | inf : Bool → PyFloat
  | finite : Int → PyFloat
deriving DecidableEq, Repr

/-- Negation of a float (a leading `-` sign): flips the sign of an
infinity or of a finite value; the sign of NaN is unobservable. -/
instance : Neg PyFloat where
  neg
    | .nan => .nan
    | .inf neg => .inf (!neg)
    | .finite units => .finite (-units)

/-- The exact rational value of a finite float given by its units of
`2 ^ (-1074)`. -/
def floatVal (units : Int) : ℚ :=
  (units : ℚ) * (2 : ℚ) ^ (-1074 : ℤ)

/-- IEEE-754 `==` on floats, as Python compares the two parses: NaN is
equal to nothing (itself included), infinities compare by sign, finite
values by their represented value. -/
def floatEq : PyFloat → PyFloat → Bool
  | .nan, _ => false
  | _, .nan => false
  | .inf s1, .inf s2 => s1 = s2
  | .inf _, .finite _ => false
  | .finite _, .inf _ => false
  | .finite u1, .finite u2 => u1 = u2

/-- `⌊log₂ n⌋` by repeated halving, with explicit fuel (the first
argument) so that the recursion is structural and kernel-evaluable;
`fuel = n` always suffices. -/
def log2Fuel : Nat → Nat → Nat
  | 0, _ => 0
  | fuel + 1, n => if 2 ≤ n then log2Fuel fuel (n / 2) + 1 else 0

/-- `⌊log₂ (n / d)⌋` for positive naturals `n`, `d`: the bit lengths
give the answer up to one, settled by one exact comparison. -/
def floorLog2Rat (n d : Nat) : Int :=
  let e0 : Int := (log2Fuel n n : Int) - (log2Fuel d d : Int)
  if 0 ≤ e0 then
    if d * 2 ^ e0.toNat ≤ n then e0 else e0 - 1
  else
    if d ≤ n * 2 ^ (-e0).toNat then e0 else e0 - 1

/-- Round the positive rational `num / den` to the nearest integer,
ties to the even neighbour (the IEEE round-to-nearest-even rule). -/
def roundHalfEven (num den : Nat) : Nat :=
  let q := num / den
  let r := num % den
  if 2 * r < den then q
  else if den < 2 * r then q + 1
  else if q % 2 = 0 then q else q + 1

/-- Round the positive rational `n / d` (both arguments positive) to
IEEE-754 binary64: choose the ulp position — `2 ^ (e - 52)` for a result
in the normal range `e ≥ -1022`, `2 ^ (-1074)` below it (subnormals and
underflow to zero) — round to nearest-even at that position, and
overflow to infinity from `2 ^ 1024` upward.  Returns the finite result
as units of `2 ^ (-1074)` (so overflow is `2 ^ 2098` units), or `none`
for overflow to infinity. -/
def roundPosToUnits (n d : Nat) : Option Nat :=
  let e := floorLog2Rat n d
  let p : Int := if e ≤ -1022 then -1074 else e - 52
  let u := if 0 ≤ p then roundHalfEven n (d * 2 ^ p.toNat)
           else roundHalfEven (n * 2 ^ (-p).toNat) d
  let units := u * 2 ^ (p + 1074).toNat
  if units < 2 ^ 2098 then some units else none

/-- Round an exact scaled decimal `m * 10 ^ e` to a binary64 value: the
correctly-rounded decimal-to-double conversion CPython's `float()`
performs on the parsed literal. -/
def pyRound (v : PyNum) : PyFloat :=
  if v.mant = 0 then .finite 0
  else
    let n : Nat := v.mant.natAbs * (if 0 ≤ v.exp10 then 10 ^ v.exp10.toNat else 1)
    let d : Nat := if 0 ≤ v.exp10 then 1 else 10 ^ (-v.exp10).toNat
    match roundPosToUnits n d with
    | some u => .finite (if v.mant < 0 then -(u : Int) else (u : Int))
    | none => .inf (decide (v.mant < 0))

/-- Case-insensitive ASCII comparison against an all-lowercase pattern
(for the `inf`, `infinity` and `nan` spellings `float()` accepts). -/
def eqIgnoreAsciiCase : Str → Str → Bool
  | [], [] => true
  | c :: cs, d :: ds =>
    (c = d || ('A' ≤ c && c ≤ 'Z' && c.toNat + 32 = d.toNat)) &&
      eqIgnoreAsciiCase cs ds
  | _, _ => false

/-- The unsigned mantissa of a Python float literal:
`digits`, `digits.`, `digits.digits` or `.digits`, in exact
scaled-decimal form. -/
def pyFrac (s : Str) : Option PyNum :=
  match pySplit '.' s with
  | [a] => (pyDigits a).map (fun v => ⟨(v.1 : Int), 0⟩)
  | [a, b] =>
    if a = [] then
      (pyDigits b).map (fun v => ⟨(v.1 : Int), -(v.2 : Int)⟩)
    else if b = [] then
      (pyDigits a).map (fun v => ⟨(v.1 : Int), 0⟩)
    else
      match pyDigits a, pyDigits b with
      | some va, some vb =>
        some ⟨(va.1 : Int) * 10 ^ vb.2 + (vb.1 : Int), -(vb.2 : Int)⟩
      | _, _ => none
  | _ => none

/-- Python `float(s)` on a string: strip whitespace, optional sign, then
either an `inf`/`infinity`/`nan` spelling (ASCII case-insensitive) or a
decimal mantissa with optional `e`/`E` exponent, correctly rounded to
IEEE-754 binary64 by `pyRound`.  `none` models the `ValueError`.
(Non-ASCII decimal digits and non-ASCII whitespace, which CPython maps
to ASCII before this grammar, are outside the model.) -/
def pyFloat (s : Str) : Option PyFloat :=
  pySigned (fun body =>
    if eqIgnoreAsciiCase body "inf".toList ||
        eqIgnoreAsciiCase body "infinity".toList then
      some (PyFloat.inf false)
    else if eqIgnoreAsciiCase body "nan".toList then
      some PyFloat.nan
    else
      ((match body.findIdx? (fun c => c = 'e' || c = 'E') with
        | none => pyFrac body
        | some i =>
          let mant := body.take i
          let expPart := body.drop (i + 1)
          match pyFrac mant,
                pySigned (fun e => (pyDigits e).map (fun v => PyNum.mk (v.1 : Int) 0))
                  expPart with
          | some m, some k => some ⟨m.mant, m.exp10 + k.mant⟩
          | _, _ => none : Option PyNum)).map pyRound) (pyStrip s)

/-! ## Data model -/

/-- One evaluation record, with the fields the core of `app.py` reads.
`is_correct` is `none` when the key is absent from the JSON object. -/
structure EvaluationRecord where
  model_name : Str
  dataset : Str
  problem_id : Int
  question : Str
  true_answer : Str
  predicted_answer : Str
  is_correct : Option Bool
  model_response : Str
deriving DecidableEq, Repr

/-- The top-level JSON document: a mapping that may or may not carry the
key `detailed_results`. -/
structure AppData where
  detailed_results : Option (List EvaluationRecord)
deriving DecidableEq, Repr

/-- `data.get('detailed_results', [])`: the record list, or `[]` when the
key is absent. -/
def AppData.detailedResults (data : AppData) : List EvaluationRecord :=
  data.detailed_results.getD []

/-! ## Index building (`get_model_names`, `get_datasets`, `get_problem_ids`) -/

/-- The key computed by `sort_key` inside `get_model_names`
(src/app.py lines 21–32).  Python's heterogeneous tuples `(0, 0)`,
`(1, number)`, `(2, model_name)` are embedded as `(tier, number, name)`
with the unused component held at a fixed value, which induces exactly
the same total order under the lexicographic comparison below (tuples
from different tiers are decided on the first component; within a tier
only the one varying component differs).  `(pySplit '_' name).getD 1 []`
embeds `model_name.split('_')[1]`; the index always exists because the
name was just checked to start with `checkpoint_`, and the `IndexError`
arm of the Python `except` is subsumed by `pyInt [] = none`. -/
def sort_key (model_name : Str) : Nat × Int × Str :=
  if model_name = "base_model".toList then
    (0, 0, [])
  else if strStartsWith model_name "checkpoint_".toList then
    match pyInt ((pySplit '_' model_name).getD 1 []) with
    | some number => (1, number, [])
    | none => (2, 0, model_name)
  else
    (2, 0, model_name)

/-- `sort_key` packaged into the lexicographically ordered product, so
that Python's tuple comparison is the `≤` of this type. -/
def modelNameKey (model_name : Str) : Lex (Nat × Lex (Int × Str)) :=
  toLex ((sort_key model_name).1, toLex (sort_key model_name).2)

/-- The comparison `sorted(..., key=sort_key)` sorts by. -/
def modelNameLE (a b : Str) : Prop :=
  modelNameKey a ≤ modelNameKey b

instance : DecidableRel modelNameLE := fun a b =>
  inferInstanceAs (Decidable (modelNameKey a ≤ modelNameKey b))

instance : IsTotal Str modelNameLE :=
  ⟨fun a b => le_total (modelNameKey a) (modelNameKey b)⟩

instance : IsTrans Str modelNameLE :=
  ⟨fun _ _ _ h h' => le_trans h h'⟩

/-- `get_model_names` (src/app.py lines 12–34): the distinct
`model_name` values, sorted by `sort_key`. -/
def get_model_names (data : AppData) : List Str :=
  List.insertionSort modelNameLE
    (data.detailedResults.map EvaluationRecord.model_name).dedup

/-- `get_datasets` (src/app.py lines 36–41): the distinct `dataset`
values, sorted lexicographically. -/
def get_datasets (data : AppData) : List Str :=
  List.insertionSort (· ≤ ·)
    (data.detailedResults.map EvaluationRecord.dataset).dedup

/-- `get_problem_ids` (src/app.py lines 43–48): the distinct
`problem_id` values, sorted numerically ascending. -/
def get_problem_ids (data : AppData) : List Int :=
  List.insertionSort (· ≤ ·)
    (data.detailedResults.map EvaluationRecord.problem_id).dedup

/-! ## Record matching (`filter_records`) -/

/-- The condition of each branch in the loop of `filter_records`: the
record's `(model_name, dataset, problem_id)` equals the requested
triple. -/
def matchesKey (model : Str) (dataset : Str) (problem_id : Int)
    (record : EvaluationRecord) : Bool :=
  record.model_name = model ∧ record.dataset = dataset ∧
    record.problem_id = problem_id

/-- `filter_records` (src/app.py lines 50–67): a single pass over the
records; a record matching `model1`'s key is assigned to the first slot,
otherwise (`elif`) one matching `model2`'s key to the second slot.  Each
assignment overwrites the slot, exactly as `record1 = record` does in
the Python loop. -/
def filter_records (data : AppData) (model1 model2 : Str)
    (dataset : Str) (problem_id : Int) :
    Option EvaluationRecord × Option EvaluationRecord :=
  data.detailedResults.foldl
    (fun acc record =>
      if matchesKey model1 dataset problem_id record then
        (some record, acc.2)
      else if matchesKey model2 dataset problem_id record then
        (acc.1, some record)
      else
        acc)
    (none, none)

/-! ## Correctness evaluation -/

/-- `calculate_is_correct` (src/app.py lines 69–74): numeric equality
when both answers parse as floats, else equality of the
whitespace-trimmed strings (the `str(...)` conversions are identities
here because the embedded answer fields are strings). -/
def calculate_is_correct (predicted_answer true_answer : Str) : Bool :=
  match pyFloat predicted_answer, pyFloat true_answer with
  | some p, some t => floatEq p t
  | _, _ => pyStrip predicted_answer = pyStrip true_answer

/-- The correctness verdict `render_normal_view` displays for one record
(src/app.py lines 101–108): the stored `is_correct` when the key is
present, otherwise the derived value.  The record itself is not part of
the result: nothing is written back. -/
def displayedVerdict (record : EvaluationRecord) : Bool :=
  match record.is_correct with
  | some stored => stored
  | none => calculate_is_correct record.predicted_answer record.true_answer

/-! ## The post-selection flow of `main` (src/app.py lines 417–436) -/

/-- What `main` does with a completed selection: the validation error for
equal models, the per-side missing-data report (each warning naming the
`(model, dataset, problem_id)` combination that failed), or the rendered
comparison. -/
inductive BattleOutcome where
  | sameModelError : BattleOutcome
  | missingData : Option (Str × Str × Int) → Option (Str × Str × Int) →
      BattleOutcome
  | render : EvaluationRecord → EvaluationRecord → Bool → BattleOutcome
deriving DecidableEq, Repr

/-- The selection flow of `main` (src/app.py lines 417–436): reject
`model1 == model2` before calling the matcher; otherwise match and
either report the missing side(s) or render (the elyza view exactly when
`dataset == "elyza"`). -/
def selectionFlow (data : AppData) (model1 model2 : Str)
    (dataset : Str) (problem_id : Int) : BattleOutcome :=
  if model1 = model2 then
    .sameModelError
  else
    match filter_records data model1 model2 dataset problem_id with
    | (some record1, some record2) =>
      .render record1 record2 (dataset = "elyza".toList)
    | (record1, record2) =>
      .missingData
        (if record1 = none then some (model1, dataset, problem_id) else none)
        (if record2 = none then some (model2, dataset, problem_id) else none)

/-! ## The model-name ordering as the specification words it

These definitions are transcribed from §4.2 of the specification (the
three-tier model-name ordering), to be compared with the `sort_key` of
the source; they are the spec side of the refinement argument and
deliberately restate the spec's wording rather than the code. -/

/-- The embedded checkpoint number as §4.2 words it: for a name starting
with `checkpoint_`, the integer parse of the segment after the first
`_`-split; `none` when the name is not a checkpoint name or the segment
does not parse as an integer. -/
def checkpointNum (name : Str) : Option Int :=
  if strStartsWith name "checkpoint_".toList then
    pyInt ((pySplit '_' name).getD 1 [])
  else
    none

/-- The tier of §4.2's three-tier key: 0 for the literal `base_model`,
1 for `checkpoint_<integer>` names, 2 for everything else (including a
`checkpoint_`-prefixed name whose segment does not parse). -/
def specTier (name : Str) : Nat :=
  if name = "base_model".toList then 0
  else if (checkpointNum name).isSome then 1
  else 2

/-- The model-name order described by the specification: lower tier
first; inside tier 1 ascending by the embedded integer (numeric, not
lexicographic); inside tier 2 lexicographic on the name itself. -/
def specModelLE (a b : Str) : Prop :=
  specTier a < specTier b ∨
    (specTier a = specTier b ∧
      (specTier a = 1 → (checkpointNum a).getD 0 ≤ (checkpointNum b).getD 0) ∧
      (specTier a = 2 → a ≤ b))

/-! ## Concrete data for witnesses and counterexamples -/

/-- A record with the given key and predicted answer (remaining fields
fixed). -/
def sampleRecord (model dataset : Str) (problem_id : Int) (predicted : Str) :
    EvaluationRecord :=
  ⟨model, dataset, problem_id, "q".toList, "42".toList, predicted, none,
    "resp".toList⟩

/-- First of two records sharing the key `("m1", "ds", 0)`. -/
def dupFirst : EvaluationRecord :=
  sampleRecord "m1".toList "ds".toList 0 "first".toList

/-- Second of two records sharing the key `("m1", "ds", 0)`. -/
def dupSecond : EvaluationRecord :=
  sampleRecord "m1".toList "ds".toList 0 "second".toList

/-- A collection holding two records with the same natural key. -/
def dupData : AppData := ⟨some [dupFirst, dupSecond]⟩

/-- A single record under the key `("mA", "gsm", 3)`. -/
def soloRecord : EvaluationRecord :=
  sampleRecord "mA".toList "gsm".toList 3 "42".toList

/-- A collection holding exactly the one record `soloRecord`. -/
def soloData : AppData := ⟨some [soloRecord]⟩

/-- A document without the `detailed_results` key. -/
def emptyData : AppData := ⟨none⟩

/-! ## Supporting lemmas -/

/-- On finite floats, `floatEq` decides exactly the equality of the
represented rational values. -/
theorem floatEq_finite_iff (u1 u2 : Int) :
    floatEq (.finite u1) (.finite u2) = true ↔ floatVal u1 = floatVal u2 := by
  unfold floatEq floatVal
  rw [decide_eq_true_eq]
  constructor
  · intro h
    rw [h]
  · intro h
    have h2 : ((2 : ℚ) ^ (-1074 : ℤ)) ≠ 0 := zpow_ne_zero _ (by norm_num)
    exact_mod_cast mul_right_cancel₀ h2 h

/-- The first slot of the `filter_records` fold is the last record of
the list matching `model1`'s key, i.e. the first match of the reversed
list. -/
theorem foldl_filter_fst (model1 model2 dataset : Str) (problem_id : Int)
    (l : List EvaluationRecord) :
    (l.foldl (fun acc record =>
        if matchesKey model1 dataset problem_id record then (some record, acc.2)
        else if matchesKey model2 dataset problem_id record then (acc.1, some record)
        else acc)
      ((none : Option EvaluationRecord), (none : Option EvaluationRecord))).1 =
      l.reverse.find? (matchesKey model1 dataset problem_id) := by
  induction l using List.reverseRecOn with
  | nil => rfl
  | append_singleton l x ih =>
    simp only [List.foldl_append, List.foldl_cons, List.foldl_nil, List.reverse_append,
      List.reverse_cons, List.reverse_nil, List.nil_append, List.singleton_append]
    by_cases h1 : matchesKey model1 dataset problem_id x = true
    · rw [if_pos h1, List.find?_cons_of_pos _ h1]
    · rw [List.find?_cons_of_neg _ h1, if_neg h1, ← ih]
      by_cases h2 : matchesKey model2 dataset problem_id x = true
      · rw [if_pos h2]
      · rw [if_neg h2]

/-- The second slot of the `filter_records` fold is the last record of
the list that matches `model2`'s key without matching `model1`'s (the
`elif` makes the first branch win on a record matching both). -/
theorem foldl_filter_snd (model1 model2 dataset : Str) (problem_id : Int)
    (l : List EvaluationRecord) :
    (l.foldl (fun acc record =>
        if matchesKey model1 dataset problem_id record then (some record, acc.2)
        else if matchesKey model2 dataset problem_id record then (acc.1, some record)
        else acc)
      ((none : Option EvaluationRecord), (none : Option EvaluationRecord))).2 =
      l.reverse.find? (fun record => !matchesKey model1 dataset problem_id record &&
        matchesKey model2 dataset problem_id record) := by
  induction l using List.reverseRecOn with
  | nil => rfl
  | append_singleton l x ih =>
    simp only [List.foldl_append, List.foldl_cons, List.foldl_nil, List.reverse_append,
      List.reverse_cons, List.reverse_nil, List.nil_append, List.singleton_append]
    by_cases h1 : matchesKey model1 dataset problem_id x = true
    · rw [if_pos h1, List.find?_cons_of_neg _ (by simp [h1]), ← ih]
    · have h1f : matchesKey model1 dataset problem_id x = false := by
        simpa using h1
      by_cases h2 : matchesKey model2 dataset problem_id x = true
      · rw [if_neg h1, if_pos h2, List.find?_cons_of_pos _ (by simp [h1f, h2])]
      · rw [if_neg h1, if_neg h2, List.find?_cons_of_neg _ (by simp [h2]), ← ih]

/-- `filter_records`' first component, characterised. -/
theorem filter_records_fst (data : AppData) (model1 model2 dataset : Str)
    (problem_id : Int) :
    (filter_records data model1 model2 dataset problem_id).1 =
      data.detailedResults.reverse.find? (matchesKey model1 dataset problem_id) :=
  foldl_filter_fst model1 model2 dataset problem_id data.detailedResults

/-- `filter_records`' second component, characterised. -/
theorem filter_records_snd (data : AppData) (model1 model2 dataset : Str)
    (problem_id : Int) :
    (filter_records data model1 model2 dataset problem_id).2 =
      data.detailedResults.reverse.find? (fun record =>
        !matchesKey model1 dataset problem_id record &&
          matchesKey model2 dataset problem_id record) :=
  foldl_filter_snd model1 model2 dataset problem_id data.detailedResults

/-- `find?` returns the head of the filtered list. -/
theorem find?_eq_head?_filter {α : Type} (p : α → Bool) :
    ∀ l : List α, l.find? p = (l.filter p).head?
  | [] => rfl
  | x :: l => by
    by_cases h : p x = true
    · rw [List.find?_cons_of_pos _ h, List.filter_cons_of_pos h]
      rfl
    · rw [List.find?_cons_of_neg _ h, List.filter_cons_of_neg (by simpa using h)]
      exact find?_eq_head?_filter p l

/-- `sort_key` computes the tuple the specification describes: the tier,
the checkpoint number inside tier 1, the name itself inside tier 2. -/
theorem sort_key_eq_spec (a : Str) :
    sort_key a = (specTier a,
      (if specTier a = 1 then (checkpointNum a).getD 0 else 0),
      (if specTier a = 2 then a else [])) := by
  by_cases hb : a = "base_model".toList
  · have ht : specTier a = 0 := by
      unfold specTier
      rw [if_pos hb]
    unfold sort_key
    rw [if_pos hb, ht]
    simp
  · by_cases hc : strStartsWith a "checkpoint_".toList = true
    · rcases h : pyInt ((pySplit '_' a).getD 1 []) with _ | n
      · have hcn : checkpointNum a = none := by
          unfold checkpointNum
          rw [if_pos hc, h]
        have ht : specTier a = 2 := by
          unfold specTier
          rw [if_neg hb, hcn]
          simp
        unfold sort_key
        rw [if_neg hb, if_pos hc, h, ht]
        simp
      · have hcn : checkpointNum a = some n := by
          unfold checkpointNum
          rw [if_pos hc, h]
        have ht : specTier a = 1 := by
          unfold specTier
          rw [if_neg hb, hcn]
          simp
        unfold sort_key
        rw [if_neg hb, if_pos hc, h, ht, hcn]
        simp
    · have hcn : checkpointNum a = none := by
        unfold checkpointNum
        rw [if_neg hc]
      have ht : specTier a = 2 := by
        unfold specTier
        rw [if_neg hb, hcn]
        simp
      unfold sort_key
      rw [if_neg hb, if_neg hc, ht]
      simp

/-- `specTier` takes only the values 0, 1, 2. -/
theorem specTier_cases (a : Str) :
    specTier a = 0 ∨ specTier a = 1 ∨ specTier a = 2 := by
  unfold specTier
  split_ifs <;> simp

/-- The ordering of the specification's §4.2 and the ordering induced by
the code's `sort_key` agree on every pair of names. -/
theorem specModelLE_iff (a b : Str) : specModelLE a b ↔ modelNameLE a b := by
  unfold specModelLE modelNameLE modelNameKey
  rw [sort_key_eq_spec a, sort_key_eq_spec b]
  simp only [Prod.Lex.le_iff]
  rcases specTier_cases a with h | h | h <;> rcases specTier_cases b with h' | h' | h' <;>
    (simp [h, h']; try omega)

/-! ## Claim theorems -/

/-- C1, counterexample: on a collection with two records sharing the
requested `(model_name, dataset, problem_id)` key, `filter_records` does
NOT return the first qualifying record in iteration order — it returns
the second (last) one, because the loop body overwrites the slot on
every match. -/
theorem filter_records_first_wins_counterexample :
    dupData.detailedResults = [dupFirst, dupSecond] ∧
    matchesKey "m1".toList "ds".toList 0 dupFirst = true ∧
    matchesKey "m1".toList "ds".toList 0 dupSecond = true ∧
    dupFirst ≠ dupSecond ∧
    (filter_records dupData "m1".toList "m2".toList "ds".toList 0).1 = some dupSecond ∧
    (filter_records dupData "m1".toList "m2".toList "ds".toList 0).1 ≠ some dupFirst := by
  decide

/-- C1 (amended): the matcher binds the LAST qualifying record
encountered in iteration order to each side (each side's result is the
first match of the reversed record list), later duplicates silently
overwriting earlier ones; repeated calls return that same
last-encountered record because the matcher is a pure function of its
arguments. -/
theorem filter_records_last_match_spec (data : AppData) (model1 model2 dataset : Str)
    (problem_id : Int) :
    (filter_records data model1 model2 dataset problem_id).1 =
      data.detailedResults.reverse.find? (matchesKey model1 dataset problem_id) ∧
    (filter_records data model1 model2 dataset problem_id).2 =
      data.detailedResults.reverse.find? (fun record =>
        !matchesKey model1 dataset problem_id record &&
          matchesKey model2 dataset problem_id record) :=
  ⟨filter_records_fst data model1 model2 dataset problem_id,
   filter_records_snd data model1 model2 dataset problem_id⟩

/-- C2: `get_model_names` returns exactly the distinct model names of
the collection (a permutation of the deduplicated name list), sorted by
the specification's three-tier order `specModelLE` — `base_model` tier
first, then `checkpoint_<integer>` names ascending by the embedded
integer (numeric, not lexicographic), then all remaining names
(including malformed `checkpoint_` names, keyed by their own string)
lexicographically — and that spec-side order coincides with the order
induced by the code's `sort_key` on every pair of names. -/
theorem get_model_names_three_tier_spec (data : AppData) :
    (get_model_names data).Perm
      ((data.detailedResults.map EvaluationRecord.model_name).dedup) ∧
    List.Sorted specModelLE (get_model_names data) ∧
    (∀ a b, specModelLE a b ↔ modelNameLE a b) := by
  refine ⟨List.perm_insertionSort _ _, ?_, fun a b => specModelLE_iff a b⟩
  exact List.Pairwise.imp (fun h => (specModelLE_iff _ _).mpr h)
    (List.sorted_insertionSort modelNameLE _)

/-- C3: `calculate_is_correct` returns the numeric (IEEE-754) equality
of the two `float()` parses whenever both inputs parse as floats — on
finite parses that is exactly equality of the represented values — and
otherwise the equality of the whitespace-trimmed strings.  The four
documented examples evaluate as the specification states, and the model
reproduces the floating-point edge behaviour of the program: `nan` is
unequal to itself, `1e400` and `2e400` both overflow to infinity and
compare equal, and `0.1` compares equal to the 55-digit exact decimal
expansion of its rounded double. -/
theorem calculate_is_correct_spec :
    (∀ predicted trueAns : Str, ∀ fp ft : PyFloat,
        pyFloat predicted = some fp → pyFloat trueAns = some ft →
        calculate_is_correct predicted trueAns = floatEq fp ft) ∧
    (∀ u1 u2 : Int,
        floatEq (.finite u1) (.finite u2) = true ↔ floatVal u1 = floatVal u2) ∧
    (∀ predicted trueAns : Str,
        pyFloat predicted = none ∨ pyFloat trueAns = none →
        (calculate_is_correct predicted trueAns = true ↔
          pyStrip predicted = pyStrip trueAns)) ∧
    calculate_is_correct "42".toList "42.0".toList = true ∧
    calculate_is_correct "42".toList "43".toList = false ∧
    calculate_is_correct " foo ".toList "foo".toList = true ∧
    calculate_is_correct "foo".toList "bar".toList = false ∧
    calculate_is_correct "nan".toList "nan".toList = false ∧
    calculate_is_correct "1e400".toList "2e400".toList = true ∧
    calculate_is_correct "0.1".toList
      "0.1000000000000000055511151231257827021181583404541015625".toList = true := by
  refine ⟨?_, floatEq_finite_iff, ?_, by decide, by decide, by decide, by decide,
    by decide, by decide, by decide⟩
  · intro predicted trueAns fp ft hp ht
    unfold calculate_is_correct
    rw [hp, ht]
  · intro predicted trueAns h
    unfold calculate_is_correct
    rcases hp : pyFloat predicted with _ | fp
    · rcases ht : pyFloat trueAns with _ | ft
      · simp
      · simp
    · rcases ht : pyFloat trueAns with _ | ft
      · simp
      · exfalso
        rcases h with h | h
        · rw [hp] at h
          cases h
        · rw [ht] at h
          cases h

/-- C3, witness: the theorem applied at `"42"` versus `"42.0"`, both of
which parse to the binary64 value representing 42 (given in units of
`2 ^ (-1074)`, computed in `Nat` and cast, since `Nat` exponentiation is
kernel-accelerated). -/
theorem calculate_is_correct_spec_witness :
    calculate_is_correct "42".toList "42.0".toList =
      floatEq (.finite ((42 * 2 ^ 1074 : Nat) : Int))
        (.finite ((42 * 2 ^ 1074 : Nat) : Int)) :=
  calculate_is_correct_spec.1 "42".toList "42.0".toList
    (.finite ((42 * 2 ^ 1074 : Nat) : Int)) (.finite ((42 * 2 ^ 1074 : Nat) : Int))
    (by decide) (by decide)

/-- C4: the displayed verdict equals the stored `is_correct` whenever
the field is present (a stored `false` included), and equals the derived
`calculate_is_correct` value exactly when the field is absent.  (The
embedding returns the verdict without touching the record, so nothing is
ever written back.) -/
theorem displayedVerdict_spec :
    (∀ (record : EvaluationRecord) (stored : Bool),
        record.is_correct = some stored → displayedVerdict record = stored) ∧
    (∀ record : EvaluationRecord, record.is_correct = none →
        displayedVerdict record =
          calculate_is_correct record.predicted_answer record.true_answer) := by
  constructor
  · intro record stored h
    unfold displayedVerdict
    rw [h]
  · intro record h
    unfold displayedVerdict
    rw [h]

/-- C4, witness: a record storing `is_correct = false` whose answers
would derive `true` still displays `false` — the stored value is
trusted, not recomputed. -/
theorem displayedVerdict_spec_witness :
    displayedVerdict ⟨"m".toList, "d".toList, 0, "q".toList, "42".toList,
      "42".toList, some false, "r".toList⟩ = false ∧
    calculate_is_correct "42".toList "42".toList = true :=
  ⟨displayedVerdict_spec.1 _ false rfl, by decide⟩

/-- C5: when the two requested model identifiers are equal, the
selection flow yields the validation error, and its outcome does not
depend on the record collection at all — evidence that the matcher is
never consulted on that path. -/
theorem selectionFlow_same_model_spec (data data' : AppData)
    (model1 model2 dataset : Str) (problem_id : Int) (h : model1 = model2) :
    selectionFlow data model1 model2 dataset problem_id = .sameModelError ∧
    selectionFlow data model1 model2 dataset problem_id =
      selectionFlow data' model1 model2 dataset problem_id := by
  unfold selectionFlow
  rw [if_pos h, if_pos h]
  exact ⟨rfl, rfl⟩

/-- C5, witness: the theorem applied to the duplicate collection and the
empty collection with `model1 = model2 = "m1"`. -/
theorem selectionFlow_same_model_spec_witness :
    selectionFlow dupData "m1".toList "m1".toList "ds".toList 0 = .sameModelError ∧
    selectionFlow dupData "m1".toList "m1".toList "ds".toList 0 =
      selectionFlow emptyData "m1".toList "m1".toList "ds".toList 0 :=
  selectionFlow_same_model_spec dupData emptyData "m1".toList "m1".toList
    "ds".toList 0 rfl

/-- C6: a document without the `detailed_results` key behaves as an
empty collection, with no error: all index builders return the empty
list and the matcher reports absence on both sides. -/
theorem missing_results_key_spec (data : AppData)
    (h : data.detailed_results = none) :
    get_model_names data = [] ∧ get_datasets data = [] ∧
    get_problem_ids data = [] ∧
    ∀ model1 model2 dataset problem_id,
      filter_records data model1 model2 dataset problem_id = (none, none) := by
  have hd : data.detailedResults = [] := by
    unfold AppData.detailedResults
    rw [h]
    rfl
  refine ⟨?_, ?_, ?_, ?_⟩
  · unfold get_model_names
    rw [hd]
    rfl
  · unfold get_datasets
    rw [hd]
    rfl
  · unfold get_problem_ids
    rw [hd]
    rfl
  · intro model1 model2 dataset problem_id
    unfold filter_records
    rw [hd]
    rfl

/-- C6, witness: the theorem applied to the keyless document. -/
theorem missing_results_key_spec_witness :
    get_model_names emptyData = [] ∧
    filter_records emptyData "a".toList "b".toList "d".toList 0 = (none, none) :=
  ⟨(missing_results_key_spec emptyData rfl).1,
   (missing_results_key_spec emptyData rfl).2.2.2 "a".toList "b".toList "d".toList 0⟩

/-- C7: when exactly one record matches side A's key and no record
matches side B's key, the matcher returns that record for side A and
absence for side B, and the selection flow reports the failure per side,
naming side B's exact `(model, dataset, problem_id)` combination and no
other. -/
theorem one_side_present_spec (data : AppData) (modelA modelB dataset : Str)
    (problem_id : Int) (r : EvaluationRecord)
    (hA : data.detailedResults.filter (matchesKey modelA dataset problem_id) = [r])
    (hB : data.detailedResults.filter (matchesKey modelB dataset problem_id) = []) :
    filter_records data modelA modelB dataset problem_id = (some r, none) ∧
    selectionFlow data modelA modelB dataset problem_id =
      .missingData none (some (modelB, dataset, problem_id)) := by
  have hne : modelA ≠ modelB := by
    intro he
    rw [he] at hA
    rw [hA] at hB
    cases hB
  have h1 : (filter_records data modelA modelB dataset problem_id).1 = some r := by
    rw [filter_records_fst, find?_eq_head?_filter, List.filter_reverse, hA]
    rfl
  have hBall := List.filter_eq_nil_iff.mp hB
  have h2 : (filter_records data modelA modelB dataset problem_id).2 = none := by
    rw [filter_records_snd, List.find?_eq_none]
    intro x hx hpx
    simp only [Bool.and_eq_true] at hpx
    exact hBall x (List.mem_reverse.mp hx) hpx.2
  have hpair : filter_records data modelA modelB dataset problem_id = (some r, none) := by
    rw [Prod.ext_iff]
    exact ⟨h1, h2⟩
  refine ⟨hpair, ?_⟩
  unfold selectionFlow
  rw [if_neg hne, hpair]
  simp

/-- C7, witness: the theorem applied to the single-record collection,
requesting its record for side A and an unknown model for side B. -/
theorem one_side_present_spec_witness :
    filter_records soloData "mA".toList "mB".toList "gsm".toList 3 =
      (some soloRecord, none) ∧
    selectionFlow soloData "mA".toList "mB".toList "gsm".toList 3 =
      .missingData none (some ("mB".toList, "gsm".toList, 3)) :=
  one_side_present_spec soloData "mA".toList "mB".toList "gsm".toList 3
    soloRecord (by decide) (by decide)

/-- C8: `get_datasets` returns the distinct dataset values sorted
lexicographically and `get_problem_ids` the distinct problem ids sorted
numerically ascending — each list duplicate-free and containing exactly
the values occurring in the records. -/
theorem datasets_problem_ids_order_spec (data : AppData) :
    List.Sorted (· ≤ ·) (get_datasets data) ∧
    (get_datasets data).Nodup ∧
    (∀ ds, ds ∈ get_datasets data ↔
      ds ∈ data.detailedResults.map EvaluationRecord.dataset) ∧
    List.Sorted (· ≤ ·) (get_problem_ids data) ∧
    (get_problem_ids data).Nodup ∧
    (∀ pid, pid ∈ get_problem_ids data ↔
      pid ∈ data.detailedResults.map EvaluationRecord.problem_id) := by
  refine ⟨List.sorted_insertionSort _ _, ?_, ?_,
    List.sorted_insertionSort _ _, ?_, ?_⟩
  · exact ((List.perm_insertionSort _ _).symm).nodup (List.nodup_dedup _)
  · intro ds
    unfold get_datasets
    rw [(List.perm_insertionSort _ _).mem_iff, List.mem_dedup]
  · exact ((List.perm_insertionSort _ _).symm).nodup (List.nodup_dedup _)
  · intro pid
    unfold get_problem_ids
    rw [(List.perm_insertionSort _ _).mem_iff, List.mem_dedup]

/-- C9: the three index builders and the matcher are pure functions of
the record collection: identical inputs — including two consecutive
matcher calls with identical arguments against an unchanged collection —
produce identical outputs. -/
theorem deterministic_pure_spec (data data' : AppData) (h : data = data') :
    get_model_names data = get_model_names data' ∧
    get_datasets data = get_datasets data' ∧
    get_problem_ids data = get_problem_ids data' ∧
    ∀ model1 model2 dataset problem_id,
      filter_records data model1 model2 dataset problem_id =
        filter_records data' model1 model2 dataset problem_id := by
  subst h
  exact ⟨rfl, rfl, rfl, fun _ _ _ _ => rfl⟩

/-- C9, witness: the theorem applied to two identical copies of the
duplicate collection, the matcher instantiated at a concrete query. -/
theorem deterministic_pure_spec_witness :
    get_model_names dupData = get_model_names dupData ∧
    filter_records dupData "m1".toList "m2".toList "ds".toList 0 =
      filter_records dupData "m1".toList "m2".toList "ds".toList 0 :=
  ⟨(deterministic_pure_spec dupData dupData rfl).1,
   (deterministic_pure_spec dupData dupData rfl).2.2.2 "m1".toList "m2".toList
     "ds".toList 0⟩

/-- C10: if `filter_records` is nevertheless called with equal model
names, every qualifying record binds to side A only (the `elif` guard
makes the side-B branch unreachable), so side B of the returned pair is
always absent. -/
theorem equal_models_side_b_none_spec (data : AppData)
    (model1 model2 dataset : Str) (problem_id : Int) (h : model1 = model2) :
    (filter_records data model1 model2 dataset problem_id).2 = none := by
  subst h
  rw [filter_records_snd, List.find?_eq_none]
  intro x hx hpx
  simp only [Bool.and_eq_true] at hpx
  rw [hpx.2] at hpx
  exact Bool.false_ne_true (by simpa using hpx.1)

/-- C10, witness: the theorem applied to the duplicate collection, whose
records do match the requested key, with both sides requesting `"m1"`. -/
theorem equal_models_side_b_none_spec_witness :
    (filter_records dupData "m1".toList "m1".toList "ds".toList 0).2 = none :=
  equal_models_side_b_none_spec dupData "m1".toList "m1".toList "ds".toList 0 rfl

end BattleArena
